import Mathlib

/-!
Verification model of the cpputils asynchronous-task subsystem (the
TaskManager registry with spawn / spawn_with_result / wait_all, the worker
thread body, the shared_future-backed Task handle) and of the Array container.
Promise/future shared states are modelled as explicit slot values, values of a
task as `Option Int` (with `none` standing for the valueless case), worker
threads as explicit program counters, and the concurrent registry as an
executable small-step event system over lists of workers.
-/

namespace Cpputils

/-- Exceptions that can be stored in a promise/future shared state or thrown
by spawn. `userError msg` models a user exception whose what() message is
`msg`; `brokenPromise` is the std::future_error stored when a promise is
destroyed while its shared state is not ready; `noState` is the
std::future_error reported when a future that no longer refers to a shared
state is accessed; `systemError` is the std::system_error thrown by the
std::thread constructor on resource exhaustion. -/
inductive Err where
  | userError (msg : String)
  | brokenPromise
  | noState
  | systemError
deriving DecidableEq

/-- The what() message of a stored exception: a user exception carries its own
message (collaborator contract of the standard exception types). -/
def Err.message : Err → String
  | .userError msg => msg
  | .brokenPromise => "broken promise"
  | .noState => "no state"
  | .systemError => "resource unavailable"

/-- A promise/future shared state (result slot). Task values are modelled as
`Option Int`: `resolved (some v)` holds a value, while `resolved none` is the
valueless resolved state that promise<void>::set_value() would produce. -/
inductive Slot where
  | pending
  | resolved (v : Option Int)
  | failed (e : Err)
deriving DecidableEq

/-- A slot is terminal when it is no longer pending. -/
def Slot.isTerminal : Slot → Bool
  | .pending => false
  | .resolved _ => true
  | .failed _ => true

/-- Observing a slot through future/shared_future get: `none` means the slot
is still pending and the call would block; otherwise the stored value or the
stored exception is surfaced. -/
def Slot.outcome : Slot → Option (Except Err (Option Int))
  | .pending => none
  | .resolved v => some (Except.ok v)
  | .failed e => some (Except.error e)

/-- Behaviour of a spawned callable at its (already bound) arguments: it
returns an Int value, returns normally with result type void, or raises. -/
inductive Behavior where
  | returnsVal (v : Int)
  | returnsVoid
  | raises (e : Err)
deriving DecidableEq

/-- The try/catch block of TaskManager::worker (part_000 lines 45-53,
identically part_001 lines 49-57): set_value(promise, f, args...) with the
non-void overload (part_000 lines 32-35) calling promise.set_value(f(args...));
the promise<void> overload (part_000 lines 38-41) only calls f(args...) and
never sets the promise, leaving the slot as it was; if the callable raises,
the catch handler stores the exception via promise.set_exception. -/
def captureOutcome (b : Behavior) (s : Slot) : Slot :=
  match b with
  | .returnsVal v => .resolved (some v)
  | .returnsVoid => s
  | .raises e => .failed e

/-- Destruction of the promise when the worker returns (the promise is a
by-value parameter of worker, destroyed after the function body): a promise
destroyed while its shared state is not ready stores a broken_promise
future_error; a ready state is left unchanged (collaborator contract of
std::promise). -/
def finalizePromise : Slot → Slot
  | .pending => .failed .brokenPromise
  | .resolved v => .resolved v
  | .failed e => .failed e

/-- The complete effect of one worker thread on its own shared state: the
sequential composition of the worker body and the promise destruction,
starting from the fresh pending state produced by spawn. -/
def runWorker (b : Behavior) : Slot :=
  finalizePromise (captureOutcome b .pending)

/-- A std::future handle: `valid` records whether it still refers to a shared
state, and `slot` is that shared state's contents at the point of
observation. -/
structure Future where
  valid : Bool
  slot : Slot
deriving DecidableEq

/-- std::future::get (collaborator contract): on a valid future it surfaces
the stored outcome once the slot is terminal (`none` while pending: the call
blocks) and releases the shared state, so the future is no longer valid
afterwards; a get on a future without a shared state reports the no_state
future_error (the behaviour implemented by the major standard libraries). -/
def Future.get (f : Future) : Option (Except Err (Option Int)) × Future :=
  if f.valid then (f.slot.outcome, ⟨false, f.slot⟩)
  else (some (Except.error Err.noState), f)

/-- A std::shared_future handle: get does not release the shared state. -/
structure SharedFuture where
  slot : Slot
deriving DecidableEq

/-- std::shared_future::get (collaborator contract): surfaces the stored
outcome (blocking while pending, modelled as `none`) and leaves the shared
state in place, so the handle is unchanged. -/
def SharedFuture.get (f : SharedFuture) : Option (Except Err (Option Int)) × SharedFuture :=
  (f.slot.outcome, f)

/-- Task (part_001 second file, lines 145-179): wraps the std::shared_future
obtained from a packaged_task whose thread is detached. -/
structure Task where
  future : SharedFuture
deriving DecidableEq

/-- Task::get (part_001 lines 163-165): return future.get(). -/
def Task.get (t : Task) : Option (Except Err (Option Int)) × Task :=
  ((t.future.get).1, t)

/-- Result of a timed wait on a future. -/
inductive FutureStatus where
  | ready
  | timeout
deriving DecidableEq

/-- std::shared_future::wait_for (collaborator contract) in an abstract
integer time model: the shared state becomes terminal at absolute time
`tready`; a call at time `now` with relative duration `d` reports ready
exactly when the state is terminal by `now + d`, and blocks no longer than
until `now + d`. -/
def SharedFuture.wait_for (tready now d : Int) : FutureStatus :=
  if tready ≤ now + d then .ready else .timeout

/-- std::shared_future::wait_until (collaborator contract): reports ready
exactly when the state is terminal by the absolute deadline. -/
def SharedFuture.wait_until (tready deadline : Int) : FutureStatus :=
  if tready ≤ deadline then .ready else .timeout

/-- Task::wait_until (part_001 lines 174-178) as written: the body is
`return future.wait_for(timeout_time);`, handing the absolute time point to
wait_for, which expects a relative duration (as written the call is even
ill-formed; under the duration reading of the argument the wait_for semantics
is applied to the deadline's numeric value, which is what this definition
does). -/
def Task.wait_until (tready now deadline : Int) : FutureStatus :=
  SharedFuture.wait_for tready now deadline

/-- One spawned worker thread: the behaviour of its callable, its program
counter (0 = body not yet run, 1 = body run, 2 = counter decremented and
waiters notified, 3 = promise destroyed), and its shared result slot. -/
structure WTask where
  behavior : Behavior
  pc : Nat
  slot : Slot
deriving DecidableEq

/-- TaskManager registry state: the atomic task_count (part_000 line 30) and
the worker threads created so far. -/
structure TMState where
  task_count : Int
  tasks : List WTask
deriving DecidableEq

/-- A freshly constructed TaskManager: no tasks, count zero. -/
def initTM : TMState := ⟨0, []⟩

/-- Interleaving events of the registry system. `spawnOk b` is a spawn call
whose std::thread construction succeeds; `spawnFail` is a spawn call whose
std::thread constructor throws after task_count was already incremented
(part_000 lines 84-88: the increment precedes thread creation, and the
propagating exception performs no rollback); the three work events are the
successive atomic sections of one worker thread: running the try/catch body,
decrementing the counter and notifying all waiters under the mutex
(part_000 lines 54-57), and destroying the promise on scope exit. -/
inductive TMEvent where
  | spawnOk (b : Behavior)
  | spawnFail
  | workBody (i : Nat)
  | workDecr (i : Nat)
  | workDtor (i : Nat)
deriving DecidableEq

/-- Small-step transition of the registry system; `none` when the event does
not apply in the given state. -/
def tmStep (s : TMState) : TMEvent → Option TMState
  | .spawnOk b => some ⟨s.task_count + 1, s.tasks ++ [⟨b, 0, .pending⟩]⟩
  | .spawnFail => some ⟨s.task_count + 1, s.tasks⟩
  | .workBody i =>
    match s.tasks[i]? with
    | some t =>
      if t.pc = 0 then
        some ⟨s.task_count, s.tasks.set i ⟨t.behavior, 1, captureOutcome t.behavior t.slot⟩⟩
      else none
    | none => none
  | .workDecr i =>
    match s.tasks[i]? with
    | some t =>
      if t.pc = 1 then
        some ⟨s.task_count - 1, s.tasks.set i ⟨t.behavior, 2, t.slot⟩⟩
      else none
    | none => none
  | .workDtor i =>
    match s.tasks[i]? with
    | some t =>
      if t.pc = 2 then
        some ⟨s.task_count, s.tasks.set i ⟨t.behavior, 3, finalizePromise t.slot⟩⟩
      else none
    | none => none

/-- Run a sequence of events from a state; `none` when some event does not
apply. -/
def runTrace (s : TMState) : List TMEvent → Option TMState
  | [] => some s
  | e :: es =>
    match tmStep s e with
    | some s2 => runTrace s2 es
    | none => none

/-- A state is reachable when some event sequence leads to it from a fresh
TaskManager. -/
def Reachable (s : TMState) : Prop :=
  ∃ evs : List TMEvent, runTrace initTM evs = some s

/-- The predicate on which TaskManager::wait_all blocks (part_000 lines
107-110): the condition-variable wait returns exactly when task_count == 0; it
reads no task's result slot. -/
def waitAllReady (s : TMState) : Prop :=
  s.task_count = 0

/-- TaskManager::spawn (part_000 lines 79-90) at the call level: create the
promise and obtain its future, increment task_count, then construct a detached
std::thread running worker. `threadOk` tells whether the thread construction
succeeds; when it throws, the exception leaves spawn after the increment has
already happened and no worker is created. -/
def TaskManager.spawn (s : TMState) (b : Behavior) (threadOk : Bool) :
    Except Err Future × TMState :=
  if threadOk then
    (Except.ok ⟨true, Slot.pending⟩,
      ⟨s.task_count + 1, s.tasks ++ [⟨b, 0, Slot.pending⟩]⟩)
  else
    (Except.error Err.systemError, ⟨s.task_count + 1, s.tasks⟩)

/-- TaskManager::spawn_with_result (part_000 lines 96-101): construct a
promise, call promise.set_value(result), and return promise.get_future(); the
returned future is valid and its shared state is already resolved. -/
def spawn_with_result (result : Int) : Future :=
  ⟨true, Slot.resolved (some result)⟩

/-- spawn_with_result is a static member whose body reads neither task_count
nor any thread state; its state-threaded translation therefore returns the
registry state unchanged. -/
def spawn_with_result_st (s : TMState) (result : Int) : Future × TMState :=
  (spawn_with_result result, s)

/-- Number of workers that have finished recording their outcome and performed
the decrement (program counter at least 2). -/
def finishedCount (ts : List WTask) : Nat :=
  (ts.filter (fun t => 2 ≤ t.pc)).length

/-- The registry invariant claimed by the specification: task_count equals the
number of workers actually committed to run minus the number that have
finished, and is never negative. -/
def registryInvariant (s : TMState) : Prop :=
  s.task_count = (s.tasks.length : Int) - (finishedCount s.tasks : Int)
    ∧ 0 ≤ s.task_count

/-- Exceptions thrown by the Array container. -/
inductive CppExc where
  | out_of_range (msg : String)
deriving DecidableEq

/-- Array from array.hpp (lines 12-15): a fixed, compile-time-sized sequence
with element storage `elems`. -/
structure Array (T : Type) (n : Nat) where
  elems : Fin n → T

/-- Array::at (array.hpp lines 31-34) with Array::boundscheck (lines 96-100)
inlined as its guard: when i >= N, throw std::out_of_range with message
"Array<>: index out of range" without touching the elements; otherwise return
elems[i]. -/
def Array.at' {T : Type} {n : Nat} (a : Array T n) (i : Nat) : Except CppExc T :=
  if h : n ≤ i then
    Except.error (CppExc.out_of_range "Array<>: index out of range")
  else
    Except.ok (a.elems ⟨i, Nat.lt_of_not_le h⟩)

/-- Array::operator[] (array.hpp lines 42-48): returns elems[index] directly
with no bounds check; an out-of-range index is undefined behaviour, so the
model's index type is Fin n. -/
def Array.opBracket {T : Type} {n : Nat} (a : Array T n) (i : Fin n) : T :=
  a.elems i

/-- Claim C1: the worker of a void callable that completes without raising in
fact leaves its promise unset (the promise<void> set_value overload only calls
the function), so after the promise is destroyed the handle's slot is
Failed(broken_promise) — it never reaches a valueless Resolved state; get and
wait do return (with that error present in the slot's outcome) rather than
suspend forever. This contradicts the claim's valueless Resolved terminal
state, so the claim is settled as a code bug witnessed by this evaluation. -/
theorem c1_void_task_ends_failed :
    runWorker Behavior.returnsVoid = Slot.failed Err.brokenPromise
    ∧ (∀ v : Option Int, runWorker Behavior.returnsVoid ≠ Slot.resolved v)
    ∧ (Slot.outcome (runWorker Behavior.returnsVoid)).isSome = true := by
  refine ⟨rfl, ?_, rfl⟩
  intro v h
  simp [runWorker, captureOutcome, finalizePromise] at h

/-- Claim C2: when std::thread construction fails, spawn does report the error
synchronously, but task_count has already been incremented and is not rolled
back, so the counter after the failed call differs from its value before the
call — against the claim's no-partial-registration atomicity. -/
theorem c2_failed_spawn_increments_counter :
    ∀ (s : TMState) (b : Behavior),
      (TaskManager.spawn s b false).1 = Except.error Err.systemError
      ∧ (TaskManager.spawn s b false).2.task_count = s.task_count + 1
      ∧ (TaskManager.spawn s b false).2.task_count ≠ s.task_count := by
  intro s b
  refine ⟨rfl, rfl, ?_⟩
  have h : (TaskManager.spawn s b false).2.task_count = s.task_count + 1 := rfl
  rw [h]
  omega

/-- Claim C3 counterexample: on the std::future returned by spawn in the
registry model, get is a consuming read: after a first get on a resolved
handle surfaces the value, the second get finds no shared state and reports
the no_state error — a different outcome from the first call, refuting the
claim that two get calls yield the same outcome on every spawn handle. -/
theorem c3_future_get_not_idempotent :
    ((Future.get ⟨true, Slot.resolved (some 4)⟩).2.get).1
      ≠ (Future.get ⟨true, Slot.resolved (some 4)⟩).1 := by
  intro h
  simp [Future.get, Slot.outcome] at h

/-- Claim C3 amended: get on a Task handle, which wraps a std::shared_future,
is an idempotent observation — a second get returns the same outcome and the
handle is unchanged — while a second get on the consumed std::future returned
by spawn reports the no_state error instead of repeating the outcome. -/
theorem c3_task_get_idempotent :
    (∀ t : Task, ((t.get).2.get).1 = (t.get).1 ∧ (t.get).2 = t)
    ∧ (∀ sl : Slot,
        ((Future.get ⟨true, sl⟩).2.get).1 = some (Except.error Err.noState)) := by
  exact ⟨fun t => ⟨rfl, rfl⟩, fun sl => rfl⟩

/-- Claim C4: Task::wait_until hands its absolute deadline to wait_for. At
current time 10 with deadline 5 and a slot becoming terminal at time 12, the
implemented call reports ready (it waits until 10 + 5 = 15, past the
deadline), while the absolute-deadline semantics stated by the claim reports
timeout; the two disagree, so wait_until does not interpret its argument as an
absolute deadline. -/
theorem c4_wait_until_uses_wait_for :
    Task.wait_until 12 10 5 = FutureStatus.ready
    ∧ SharedFuture.wait_until 12 5 = FutureStatus.timeout
    ∧ Task.wait_until 12 10 5 ≠ SharedFuture.wait_until 12 5 := by
  refine ⟨by decide, by decide, by decide⟩

/-- Claim C5: for a zero-argument callable — the only case the source
compiles, since spawn and worker write std::forward without its template
argument list — the worker records the returned value exactly once and get
returns it: a task computing 2 + 2 ends with its slot resolved to 4, get
yields 4, and the full registry trace of that task ends with count 0 and the
resolved slot. -/
theorem c5_scenarioA_two_plus_two :
    runWorker (Behavior.returnsVal (2 + 2)) = Slot.resolved (some 4)
    ∧ (Future.get ⟨true, runWorker (Behavior.returnsVal (2 + 2))⟩).1
        = some (Except.ok (some 4))
    ∧ runTrace initTM [TMEvent.spawnOk (Behavior.returnsVal (2 + 2)),
        TMEvent.workBody 0, TMEvent.workDecr 0, TMEvent.workDtor 0]
        = some ⟨0, [⟨Behavior.returnsVal 4, 3, Slot.resolved (some 4)⟩]⟩ := by
  refine ⟨rfl, rfl, by decide⟩

/-- Claim C6: a reachable counterexample to "when wait_all returns, every slot
is terminal": spawn one void task; its worker runs the body (which never sets
the promise), then decrements the counter and notifies; in the resulting state
task_count is 0, so wait_all's wake-up predicate holds and a drain-waiter
returns, while the task's result slot is still Pending — it becomes terminal
only when the promise is destroyed afterwards. -/
theorem c6_wait_all_returns_before_terminal :
    Reachable ⟨0, [⟨Behavior.returnsVoid, 2, Slot.pending⟩]⟩
    ∧ waitAllReady ⟨0, [⟨Behavior.returnsVoid, 2, Slot.pending⟩]⟩
    ∧ Slot.isTerminal Slot.pending = false := by
  refine ⟨⟨[TMEvent.spawnOk Behavior.returnsVoid, TMEvent.workBody 0,
    TMEvent.workDecr 0], by decide⟩, rfl, rfl⟩

/-- Claim C7: a raising callable's failure is captured into its own slot by
the catch handler before the decrement, the counter returns to 0 whatever the
behaviour (success, void, or failure), get on that handle surfaces the stored
error — message "boom" in Scenario B — and wait_all's readiness predicate
depends only on the counter, never on any slot, so failures are not surfaced
to drain callers. -/
theorem c7_failure_captured_locally :
    (∀ e : Err, runTrace initTM [TMEvent.spawnOk (Behavior.raises e),
        TMEvent.workBody 0, TMEvent.workDecr 0, TMEvent.workDtor 0]
      = some ⟨0, [⟨Behavior.raises e, 3, Slot.failed e⟩]⟩)
    ∧ (∀ b : Behavior,
        (runTrace initTM [TMEvent.spawnOk b, TMEvent.workBody 0,
          TMEvent.workDecr 0, TMEvent.workDtor 0]).map TMState.task_count
        = some 0)
    ∧ (Future.get ⟨true, Slot.failed (Err.userError "boom")⟩).1
        = some (Except.error (Err.userError "boom"))
    ∧ (Err.userError "boom").message = "boom"
    ∧ (∀ c : Int, ∀ ts1 ts2 : List WTask,
        waitAllReady ⟨c, ts1⟩ ↔ waitAllReady ⟨c, ts2⟩) := by
  refine ⟨fun e => rfl, fun b => ?_, rfl, rfl, fun c ts1 ts2 => Iff.rfl⟩
  cases b <;> rfl

/-- Claim C8: spawn_with_result returns a handle that is valid and already in
the resolved terminal state: get yields the value immediately (the slot's
outcome is present, so neither get nor wait suspends), and the registry state
— both the counter and the worker list — is untouched, so no execution unit is
launched. -/
theorem c8_spawn_with_result_resolved :
    ∀ v : Int,
      (spawn_with_result v).valid = true
      ∧ (spawn_with_result v).slot = Slot.resolved (some v)
      ∧ (Future.get (spawn_with_result v)).1 = some (Except.ok (some v))
      ∧ (Slot.outcome (spawn_with_result v).slot).isSome = true
      ∧ (∀ s : TMState, (spawn_with_result_st s v).2.task_count = s.task_count)
      ∧ (∀ s : TMState, (spawn_with_result_st s v).2.tasks = s.tasks) := by
  intro v
  exact ⟨rfl, rfl, rfl, rfl, fun s => rfl, fun s => rfl⟩

/-- Claim C9: the claimed registry invariant fails in a reachable state: a
spawn whose thread construction throws still increments task_count, so after
one such failed spawn the counter is 1 while no worker was ever committed and
none has finished — and 1 is not 0 minus 0. -/
theorem c9_invariant_fails_after_spawn_failure :
    Reachable ⟨1, []⟩ ∧ ¬ registryInvariant ⟨1, []⟩ := by
  constructor
  · exact ⟨[TMEvent.spawnFail], by decide⟩
  · intro h
    have h1 := h.1
    simp [finishedCount] at h1

/-- Claim C10: Array::at returns the i-th element for every in-range index and
throws out_of_range with message "Array<>: index out of range" for every index
n + k at or beyond the bound (reading no element first, as boundscheck throws
before any access and the model is a pure read), while operator[] returns the
element directly with no bounds check. -/
theorem c10_array_at_bounds {T : Type} {n : Nat} (a : Array T n) :
    (∀ j : Fin n, a.at' j.val = Except.ok (a.elems j))
    ∧ (∀ k : Nat, a.at' (n + k)
        = Except.error (CppExc.out_of_range "Array<>: index out of range"))
    ∧ (∀ j : Fin n, a.opBracket j = a.elems j) := by
  refine ⟨fun j => ?_, fun k => ?_, fun j => rfl⟩
  · have hj : ¬ n ≤ j.val := Nat.not_le.mpr j.isLt
    simp [Array.at', hj]
  · simp [Array.at', Nat.le_add_right]

end Cpputils
